import Mathlib

/-!
Verification of the package-operation orchestrator of the AUR helper
(src/src/main.rs) against its natural-language specification.

The shallow embedding below translates the Rust code directly:

* `AppState` mirrors the `AppState` struct (the shared operation state);
  the `log` vector grows at its end (`Vec::push` is `++ [x]`).
* External effects (HTTP fetches, `makepkg` / `pacman` / `pkexec`
  subprocesses, the file system) are modelled as oracle inputs collected
  in a `World` record: a subprocess call yields either a spawn error
  (the `?` on `Command::output()`) or a `CmdOutput` carrying the exit
  status and captured stderr; a directory listing is an optional list of
  fallible entries, mirroring `fs::read_dir(..).ok()?` and
  `entry.ok()?`.
* Each lock-scoped mutation of the shared state in `MyApp::update` and
  in `run_package_management_logic` becomes a pure state-transition
  function; `WriteEvent`/`applyWrite` enumerates these atomic write
  regions so that invariants can be stated over all of them.
* `run_package_management_logic` additionally records the list of
  external stage commands it actually invoked (`StageCall`), so that
  "stage X was never invoked" is expressible.
-/

/-- Exit status (`status.success()`) and captured stderr of a spawned
command, as used by `build_package`, `install_package`,
`uninstall_package` and `is_package_installed`. -/
structure CmdOutput where
  success : Bool
  stderr : String
deriving DecidableEq

/-- Model of the `Package` struct deserialized from the AUR info response. -/
structure Package where
  name : String
  version : String
  description : String
  urlpath : String
deriving DecidableEq

/-- The shared `AppState` struct (field for field). -/
structure AppState where
  log : List String
  package_name : String
  is_running : Bool
  progress : Option String
  error : Option String
  search_results : List String
  selected_package : Option String
deriving DecidableEq

/-- Initial state, `AppState::default()`: all fields empty / false / none. -/
def initState : AppState :=
  { log := [], package_name := "", is_running := false, progress := none,
    error := none, search_results := [], selected_package := none }

/-- Model of `AppState::clear_log` — `self.log.clear()`. -/
def AppState.clear_log (st : AppState) : AppState :=
  { st with log := [] }

/-- Model of `AppState::add_search_results` — wholesale replacement. -/
def AppState.add_search_results (st : AppState) (results : List String) : AppState :=
  { st with search_results := results }

/-- Model of `AppState::select_package`. -/
def AppState.select_package (st : AppState) (package : Option String) : AppState :=
  { st with selected_package := package }

/-- Rust `str::starts_with` on the underlying character sequence. -/
def rStartsWith (s pat : String) : Bool :=
  pat.data.isPrefixOf s.data

/-- Rust `str::ends_with` on the underlying character sequence. -/
def rEndsWith (s pat : String) : Bool :=
  pat.data.isSuffixOf s.data

/-- Model of `build_package`: runs `makepkg -si --noconfirm`; a spawn failure
propagates via `?`, but an unsuccessful exit status is only printed
(`eprintln!("Failed to build package: ...")`) and the function returns
`Ok(())` in both branches of the status check. -/
def build_package (spawn : Except String CmdOutput) : Except String Unit := do
  let _output ← spawn
  pure ()

/-- Model of `install_package`: runs `pkexec pacman -U <file> --noconfirm`; like
`build_package`, an unsuccessful exit status is only printed and the
function returns `Ok(())`. -/
def install_package (spawn : Except String CmdOutput) : Except String Unit := do
  let _output ← spawn
  pure ()

/-- Model of `uninstall_package`: runs `pkexec pacman -Rns <name> --noconfirm`;
same shape as `install_package`. -/
def uninstall_package (spawn : Except String CmdOutput) : Except String Unit := do
  let _output ← spawn
  pure ()

/-- Model of `is_package_installed`: `pacman -Q <name>`, returning the exit
status as the answer. -/
def is_package_installed (spawn : Except String CmdOutput) : Except String Bool := do
  let output ← spawn
  pure output.success

/-- One entry of a directory listing: its file name and whether
`path.is_file()` holds.  (`path.file_name()` of a `read_dir` entry is
always present, so it is modelled as a plain string.) -/
structure DirEntry where
  name : String
  isFile : Bool
deriving DecidableEq

/-- The match condition of the scan loop in `find_package_file`:
`path.is_file() && file_name.starts_with(package_name) &&
file_name.ends_with(".pkg.tar.zst")`. -/
def matchesArtifact (package_name : String) (d : DirEntry) : Bool :=
  d.isFile && rStartsWith d.name package_name && rEndsWith d.name ".pkg.tar.zst"

/-- The `for entry in entries` loop of `find_package_file`: a fallible
entry aborts the whole scan with `None` (`entry.ok()?`); a matching file
returns its full path; otherwise the loop continues. -/
def find_scan (base_directory package_name : String) :
    List (Except String DirEntry) → Option String
  | [] => none
  | Except.error _ :: _ => none
  | Except.ok d :: rest =>
    if matchesArtifact package_name d then
      some (base_directory ++ "/" ++ package_name ++ "/" ++ d.name)
    else
      find_scan base_directory package_name rest

/-- Model of `find_package_file`: reads `base_directory/package_name`
(`fs::read_dir(..).ok()?` — a failed read is `None`) and scans it. -/
def find_package_file (listing : Option (List (Except String DirEntry)))
    (base_directory package_name : String) : Option String :=
  match listing with
  | none => none
  | some entries => find_scan base_directory package_name entries

/-- Oracle for the external effects of one install-pipeline run. -/
structure World where
  fetchMeta : Except String Package
  download : Except String Unit
  buildSpawn : Except String CmdOutput
  listing : Option (List (Except String DirEntry))
  installSpawn : Except String CmdOutput

/-- External stage commands a pipeline run can invoke. -/
inductive StageCall where
  | metadataFetch
  | downloadExtract
  | buildCmd
  | installCmd
deriving DecidableEq

/-- Outcome of `run_package_management_logic`: the shared state after
the run, the `Result` the function returned to its caller, and the list
of external stage commands it invoked, in order. -/
structure RunOutcome where
  state : AppState
  result : Except String Unit
  calls : List StageCall

/-- Model of `run_package_management_logic`, statement by statement:
`fetch_metadata` failures propagate via `?`; a download, build, or
install failure sets `error`, clears `is_running`, and returns `Ok(())`
(so the caller sees success); only the missing-artifact case
(`find_package_file(..).ok_or("Package file not found")?`) propagates
as an error after the download; the success path sets the progress
labels in sequence and finally pushes one completion log line. -/
def run_package_management_logic (w : World) (st : AppState) : RunOutcome :=
  match w.fetchMeta with
  | Except.error e => { state := st, result := Except.error e, calls := [StageCall.metadataFetch] }
  | Except.ok package =>
    match w.download with
    | Except.error e =>
      { state := { st with error := some e, is_running := false },
        result := Except.ok (),
        calls := [StageCall.metadataFetch, StageCall.downloadExtract] }
    | Except.ok () =>
      let st := { st with progress := some "Package downloaded and extracted." }
      match build_package w.buildSpawn with
      | Except.error e =>
        { state := { st with error := some e, is_running := false },
          result := Except.ok (),
          calls := [StageCall.metadataFetch, StageCall.downloadExtract, StageCall.buildCmd] }
      | Except.ok () =>
        let st := { st with progress := some "Package built successfully." }
        match find_package_file w.listing "/tmp/yay" package.name with
        | none =>
          { state := st,
            result := Except.error "Package file not found",
            calls := [StageCall.metadataFetch, StageCall.downloadExtract, StageCall.buildCmd] }
        | some _package_file =>
          match install_package w.installSpawn with
          | Except.error e =>
            { state := { st with error := some e, is_running := false },
              result := Except.ok (),
              calls := [StageCall.metadataFetch, StageCall.downloadExtract,
                        StageCall.buildCmd, StageCall.installCmd] }
          | Except.ok () =>
            { state := { st with progress := some "Package installed successfully.",
                                 is_running := false,
                                 log := st.log ++ ["Package installation process completed."] },
              result := Except.ok (),
              calls := [StageCall.metadataFetch, StageCall.downloadExtract,
                        StageCall.buildCmd, StageCall.installCmd] }

/-- Outcome of the one-shot CLI adapter: the final shared state and the
message printed by `if let Err(e) = result { eprintln!("Error: {}", e) }`
(`none` when nothing is printed). -/
structure CliOutcome where
  state : AppState
  report : Option String

/-- Model of `run_cli` for a given package argument: fresh default state, block
on the pipeline, report the returned error if any. -/
def run_cli (w : World) : CliOutcome :=
  let o := run_package_management_logic w initState
  { state := o.state,
    report := match o.result with
              | Except.error e => some ("Error: " ++ e)
              | Except.ok _ => none }

/-- The Search button handler (`MyApp::update`): when the entered name
is nonempty and nothing is running, mark the operation started — set
`is_running`, clear `error`, set the initial progress label; otherwise
the click changes nothing. -/
def searchStartClick (st : AppState) : AppState :=
  if st.package_name ≠ "" ∧ st.is_running = false then
    { st with is_running := true, error := none, progress := some "Searching..." }
  else st

/-- The completion write of the spawned search task: on success replace
the results, clear `is_running` and `progress`, push one log line; on
failure set `error`, clear `is_running`, push one log line. -/
def searchDone (res : Except String (List String)) (st : AppState) : AppState :=
  match res with
  | Except.ok results =>
    { (st.add_search_results results) with
      is_running := false, progress := none,
      log := st.log ++ ["Search completed."] }
  | Except.error e =>
    { st with error := some e, is_running := false,
              log := st.log ++ ["Search failed: " ++ e] }

/-- A radio-button click on a search result: select the package, then
set `progress` from `is_package_installed(..).unwrap_or(false)` — an
already-installed notice, or cleared. -/
def selectClick (installed : Bool) (result : String) (st : AppState) : AppState :=
  let st := st.select_package (some result)
  if installed then
    { st with progress := some "Package is already installed." }
  else
    { st with progress := none }

/-- The Install/Uninstall button label, from the installed check. -/
def buttonText (installed : Bool) : String :=
  if installed then "Uninstall" else "Install"

/-- The Install/Uninstall button handler: the button exists only when a
package is selected and `is_running` is false; a click marks the
operation started — set `is_running`, clear `error`, set the initial
progress label built from the button text. -/
def opStartClick (installed : Bool) (st : AppState) : AppState :=
  match st.selected_package with
  | some _ =>
    if st.is_running = false then
      { st with is_running := true, error := none,
                progress := some (buttonText installed ++ "...") }
    else st
  | none => st

/-- The completion write of the spawned install/uninstall task: on
failure set `error`, clear `is_running`, push one failure log line; on
success set `progress` to a success message, clear `is_running`, push
one completion log line. -/
def opDone (bt : String) (res : Except String Unit) (st : AppState) : AppState :=
  match res with
  | Except.error e =>
    { st with error := some e, is_running := false,
              log := st.log ++ [bt ++ " failed: " ++ e] }
  | Except.ok _ =>
    { st with progress := some ("Package " ++ bt ++ " successfully."),
              is_running := false,
              log := st.log ++ ["Package " ++ bt ++ " process completed."] }

/-- The Clear Log button handler: the button is rendered only in the
`else` branch of `if state.is_running`, so while running the click
cannot happen and nothing changes; otherwise the log is cleared. -/
def clearLogClick (st : AppState) : AppState :=
  if st.is_running then st else st.clear_log

/-- The atomic lock-scoped write regions of the program: the five GUI
handlers above plus the three kinds of lock scopes inside
`run_package_management_logic` (a stage failure setting `error` and
clearing `is_running`, a progress update, and the final success
block). -/
inductive WriteEvent where
  | searchStart
  | searchFinished (res : Except String (List String))
  | select (installed : Bool) (result : String)
  | opStart (installed : Bool)
  | opFinished (bt : String) (res : Except String Unit)
  | clearLogBtn
  | stageFail (e : String)
  | stageProgress (msg : String)
  | pipelineFinish

/-- Apply one atomic write region to the shared state. -/
def applyWrite : WriteEvent → AppState → AppState
  | WriteEvent.searchStart, st => searchStartClick st
  | WriteEvent.searchFinished res, st => searchDone res st
  | WriteEvent.select installed result, st => selectClick installed result st
  | WriteEvent.opStart installed, st => opStartClick installed st
  | WriteEvent.opFinished bt res, st => opDone bt res st
  | WriteEvent.clearLogBtn, st => clearLogClick st
  | WriteEvent.stageFail e, st => { st with error := some e, is_running := false }
  | WriteEvent.stageProgress msg, st => { st with progress := some msg }
  | WriteEvent.pipelineFinish, st =>
    { st with progress := some "Package installed successfully.",
              is_running := false,
              log := st.log ++ ["Package installation process completed."] }

/-- Apply a sequence of atomic write regions in order. -/
def applyEvents (evs : List WriteEvent) (st : AppState) : AppState :=
  evs.foldl (fun s ev => applyWrite ev s) st

/-- Predicate `LogExtends a b`: the earlier log `a` is a prefix of the later log
`b`, i.e. `b` only appends to `a`. -/
def LogExtends (a b : List String) : Prop :=
  ∃ t, b = a ++ t

/-- Discriminator `WriteEvent.isClearLog`: whether the event is the caller's explicit
clear-log action. -/
def WriteEvent.isClearLog : WriteEvent → Bool
  | WriteEvent.clearLogBtn => true
  | _ => false

/-- A concrete package record as returned by a metadata fetch. -/
def pkgFoo : Package :=
  { name := "foo", version := "1.0", description := "a package", urlpath := "/cgit/foo.tar.gz" }

/-- A concrete run in which every external call succeeds and the output
directory holds a matching artifact. -/
def wAllOk : World :=
  { fetchMeta := Except.ok pkgFoo,
    download := Except.ok (),
    buildSpawn := Except.ok { success := true, stderr := "" },
    listing := some [Except.ok { name := "foo-1.0-x86_64.pkg.tar.zst", isFile := true }],
    installSpawn := Except.ok { success := true, stderr := "" } }

/-- A concrete run in which `makepkg` spawns but exits with a nonzero
status, while everything else (including the artifact directory and the
install command) behaves as in a successful run. -/
def wBuildExitFail : World :=
  { wAllOk with buildSpawn := Except.ok { success := false, stderr := "make: *** no target" } }

/-- A concrete run in which the download/extract stage fails. -/
def wDownloadFail : World :=
  { wAllOk with download := Except.error "connection reset by peer" }

/-- A concrete run in which the metadata fetch fails. -/
def wFetchFail : World :=
  { wAllOk with fetchMeta := Except.error "Package not found" }

/-- C1 (code evaluation at the failing input): the claim says a Build
stage whose external command exits unsuccessfully halts the pipeline,
so the Install stage is never invoked and the operation ends in
failure.  In the code, `build_package` only prints the failure and
returns `Ok(())`, so on `wBuildExitFail` the pipeline goes on to invoke
the install command, the run returns success, and no error is
recorded. -/
theorem C1_build_exit_failure_still_installs :
    StageCall.installCmd ∈ (run_package_management_logic wBuildExitFail
      { initState with is_running := true }).calls ∧
    (run_package_management_logic wBuildExitFail
      { initState with is_running := true }).result = Except.ok () ∧
    (run_package_management_logic wBuildExitFail
      { initState with is_running := true }).state.error = none :=
  ⟨by decide, rfl, rfl⟩

/-- C2 (code evaluation at the failing input): the claim says the
install and uninstall stages return a `SubprocessError` exactly when
the privileged command exits unsuccessfully.  In the code both
functions print the failure and return `Ok(())` when the command exits
unsuccessfully; only a spawn failure of `Command::output()` is
propagated. -/
theorem C2_exit_failure_swallowed :
    install_package (Except.ok { success := false, stderr := "error: could not commit transaction" }) =
      Except.ok () ∧
    uninstall_package (Except.ok { success := false, stderr := "error: target not found" }) =
      Except.ok () ∧
    install_package (Except.error "spawn failed") = Except.error "spawn failed" ∧
    uninstall_package (Except.error "spawn failed") = Except.error "spawn failed" :=
  ⟨rfl, rfl, rfl, rfl⟩

/-- C3: a start request (Search click, or Install/Uninstall click)
succeeds only while `is_running` is false; a successful start sets
`is_running := true`, clears `error`, and sets `progress` to an initial
label; a start request made while `is_running` is true mutates no
field. -/
theorem C3_begin_operation_contract (st : AppState) (installed : Bool) :
    (st.is_running = true → searchStartClick st = st ∧ opStartClick installed st = st) ∧
    (st.is_running = false → st.package_name ≠ "" →
      (searchStartClick st).is_running = true ∧
      (searchStartClick st).error = none ∧
      (searchStartClick st).progress = some "Searching...") ∧
    (∀ p, st.is_running = false → st.selected_package = some p →
      (opStartClick installed st).is_running = true ∧
      (opStartClick installed st).error = none ∧
      (opStartClick installed st).progress = some (buttonText installed ++ "...")) := by
  refine ⟨fun h => ⟨?_, ?_⟩, fun h hn => ?_, fun p h hsel => ?_⟩
  · simp [searchStartClick, h]
  · cases hsel : st.selected_package <;> simp [opStartClick, hsel, h]
  · simp [searchStartClick, h, hn]
  · simp [opStartClick, hsel, h]

/-- C3 witness: concrete instances of the three parts of the start
contract. -/
theorem C3_begin_operation_contract_w :
    searchStartClick { initState with is_running := true } = { initState with is_running := true } ∧
    (searchStartClick { initState with package_name := "foo" }).is_running = true ∧
    (opStartClick false { initState with selected_package := some "foo" }).progress =
      some "Install..." :=
  ⟨((C3_begin_operation_contract { initState with is_running := true } false).1 rfl).1,
   ((C3_begin_operation_contract { initState with package_name := "foo" } false).2.1
      rfl (by decide)).1,
   ((C3_begin_operation_contract { initState with selected_package := some "foo" } false).2.2
      "foo" rfl rfl).2.2⟩

/-- Helper: a build command that spawns always yields `Ok(())`,
whatever its exit status. -/
theorem build_package_ok (o : CmdOutput) : build_package (Except.ok o) = Except.ok () := rfl

/-- Helper: an install command that spawns always yields `Ok(())`,
whatever its exit status. -/
theorem install_package_ok (o : CmdOutput) : install_package (Except.ok o) = Except.ok () := rfl

/-- C4 counterexample: on a fully successful GUI install operation the
ending does not clear `progress` (it sets it to a success message) and
appends two log lines — one from the pipeline's final block and one
from the completion handler — not exactly one. -/
theorem C4_success_keeps_progress_and_logs_twice :
    initState.progress = none ∧
    (opDone "Install"
        (run_package_management_logic wAllOk { initState with is_running := true }).result
        (run_package_management_logic wAllOk { initState with is_running := true }).state).progress =
      some "Package Install successfully." ∧
    (opDone "Install"
        (run_package_management_logic wAllOk { initState with is_running := true }).result
        (run_package_management_logic wAllOk { initState with is_running := true }).state).log =
      ["Package installation process completed.", "Package Install process completed."] :=
  ⟨rfl, rfl, rfl⟩

/-- C4 (amended): ending an operation clears `is_running`.  A failure
result delivered to a completion handler sets `error` and appends
exactly one failure log line.  A success result makes the search
handler clear `progress` and append exactly one completion line, while
the install/uninstall handler sets `progress` to a success message
(rather than clearing it) and appends one completion line — so a fully
successful install pipeline, whose final block already appended its own
completion line, ends with two appended log lines in total. -/
theorem C4_end_operation_behavior :
    (∀ bt r st, (opDone bt r st).is_running = false) ∧
    (∀ bt e st, opDone bt (Except.error e) st =
      { st with error := some e, is_running := false,
                log := st.log ++ [bt ++ " failed: " ++ e] }) ∧
    (∀ bt st, opDone bt (Except.ok ()) st =
      { st with progress := some ("Package " ++ bt ++ " successfully."), is_running := false,
                log := st.log ++ ["Package " ++ bt ++ " process completed."] }) ∧
    (∀ results st, searchDone (Except.ok results) st =
      { st with search_results := results, is_running := false, progress := none,
                log := st.log ++ ["Search completed."] }) ∧
    (∀ e st, searchDone (Except.error e) st =
      { st with error := some e, is_running := false,
                log := st.log ++ ["Search failed: " ++ e] }) ∧
    (∀ w st pkg bo io f, w.fetchMeta = Except.ok pkg → w.download = Except.ok () →
      w.buildSpawn = Except.ok bo →
      find_package_file w.listing "/tmp/yay" pkg.name = some f →
      w.installSpawn = Except.ok io →
      (opDone "Install" (run_package_management_logic w st).result
          (run_package_management_logic w st).state).log =
        st.log ++ ["Package installation process completed.",
                   "Package Install process completed."]) := by
  refine ⟨fun bt r st => ?_, fun bt e st => rfl, fun bt st => rfl,
          fun results st => rfl, fun e st => rfl, fun w st pkg bo io f h1 h2 h3 h4 h5 => ?_⟩
  · cases r <;> rfl
  · simp only [run_package_management_logic, h1, h2, h3, h4, h5,
               build_package_ok, install_package_ok, opDone]
    simp

/-- C4 witness: the amended two-log-line behavior evaluated on the
fully successful concrete run. -/
theorem C4_end_operation_behavior_w :
    (opDone "Install" (run_package_management_logic wAllOk initState).result
        (run_package_management_logic wAllOk initState).state).log =
      initState.log ++ ["Package installation process completed.",
                        "Package Install process completed."] :=
  C4_end_operation_behavior.2.2.2.2.2 wAllOk initState pkgFoo
    { success := true, stderr := "" } { success := true, stderr := "" }
    "/tmp/yay/foo/foo-1.0-x86_64.pkg.tar.zst" rfl rfl rfl rfl rfl

/-- C5 counterexample: on a download-stage failure the operation fails
(the shared state ends with the error recorded and `is_running`
false), yet the one-shot CLI adapter prints nothing, because the
pipeline returned `Ok(())` after publishing the error. -/
theorem C5_cli_silent_on_download_failure :
    (run_cli wDownloadFail).report = none ∧
    (run_cli wDownloadFail).state.error = some "connection reset by peer" ∧
    (run_cli wDownloadFail).state.is_running = false :=
  ⟨rfl, rfl, rfl⟩

/-- C5 (amended): the one-shot CLI adapter runs the pipeline to
completion and reports an error exactly when the pipeline call itself
returns one — a metadata-fetch failure or a missing artifact.  A
download-stage failure (and likewise a build or install spawn failure)
sets the shared error state but returns success, so the CLI reports
nothing for it. -/
theorem C5_cli_reports_only_returned_errors :
    (∀ w, (run_cli w).report = none ↔
      (run_package_management_logic w initState).result = Except.ok ()) ∧
    (∀ w e, w.fetchMeta = Except.error e →
      (run_cli w).report = some ("Error: " ++ e)) ∧
    (∀ w e pkg, w.fetchMeta = Except.ok pkg → w.download = Except.error e →
      (run_cli w).report = none ∧ (run_cli w).state.error = some e) ∧
    (∀ w pkg bo, w.fetchMeta = Except.ok pkg → w.download = Except.ok () →
      w.buildSpawn = Except.ok bo →
      find_package_file w.listing "/tmp/yay" pkg.name = none →
      (run_cli w).report = some ("Error: " ++ "Package file not found")) := by
  refine ⟨fun w => ?_, fun w e h1 => ?_, fun w e pkg h1 h2 => ?_, fun w pkg bo h1 h2 h3 h4 => ?_⟩
  · cases h : (run_package_management_logic w initState).result with
    | ok u => cases u; simp [run_cli, h]
    | error e => simp [run_cli, h]
  · simp [run_cli, run_package_management_logic, h1]
  · constructor <;> simp [run_cli, run_package_management_logic, h1, h2]
  · simp [run_cli, run_package_management_logic, h1, h2, h3, h4, build_package_ok]

/-- C5 witness: the amended reporting rule evaluated on a concrete
metadata-fetch failure. -/
theorem C5_cli_reports_only_returned_errors_w :
    (run_cli wFetchFail).report = some ("Error: " ++ "Package not found") :=
  C5_cli_reports_only_returned_errors.2.1 wFetchFail "Package not found" rfl

/-- C6 counterexample: from the initial state (not busy, `progress`
empty), selecting an already-installed identifier twice in a row
leaves `progress = some "Package is already installed."` — a field
other than `selectedPackage` changed. -/
theorem C6_double_select_mutates_progress :
    initState.is_running = false ∧
    initState.progress = none ∧
    (selectClick true "foo" (selectClick true "foo" initState)).progress =
      some "Package is already installed." :=
  ⟨rfl, rfl, rfl⟩

/-- C6 (amended): selecting the same identifier twice in a row while
not busy updates `selectedPackage` and recomputes `progress` from the
installed check (an already-installed notice, or cleared); every other
field is unchanged, no operation starts (`is_running` stays false),
and the second selection changes nothing at all — selection is
idempotent. -/
theorem C6_select_idempotent_frame (installed : Bool) (result : String) (st : AppState)
    (h : st.is_running = false) :
    selectClick installed result (selectClick installed result st) =
      selectClick installed result st ∧
    (selectClick installed result st).selected_package = some result ∧
    (selectClick installed result st).progress =
      (if installed then some "Package is already installed." else none) ∧
    (selectClick installed result st).is_running = false ∧
    (selectClick installed result st).log = st.log ∧
    (selectClick installed result st).error = st.error ∧
    (selectClick installed result st).search_results = st.search_results ∧
    (selectClick installed result st).package_name = st.package_name := by
  cases installed <;> simp [selectClick, AppState.select_package, h]

/-- C6 witness: idempotence of selection evaluated at a concrete
not-installed identifier from the initial state. -/
theorem C6_select_idempotent_frame_w :
    selectClick false "foo" (selectClick false "foo" initState) =
      selectClick false "foo" initState :=
  (C6_select_idempotent_frame false "foo" initState rfl).1

/-- C7: every atomic write region preserves the invariant that a busy
state carries no error, and any write that introduces an error value
also leaves `is_running = false` — an error is only ever set together
with clearing the busy flag. -/
theorem C7_busy_implies_no_error (ev : WriteEvent) (st : AppState)
    (h : st.is_running = true → st.error = none) :
    ((applyWrite ev st).is_running = true → (applyWrite ev st).error = none) ∧
    (∀ e, (applyWrite ev st).error = some e → st.error ≠ some e →
      (applyWrite ev st).is_running = false) := by
  cases ev with
  | searchStart =>
    simp only [applyWrite, searchStartClick]
    split
    · exact ⟨fun _ => rfl, fun e he _ => nomatch he⟩
    · exact ⟨h, fun e he hne => absurd he hne⟩
  | searchFinished res =>
    cases res with
    | ok results => exact ⟨fun hb => (nomatch hb), fun _ _ _ => rfl⟩
    | error e => exact ⟨fun hb => (nomatch hb), fun _ _ _ => rfl⟩
  | select installed result =>
    cases installed with
    | false => exact ⟨h, fun e he hne => absurd he hne⟩
    | true => exact ⟨h, fun e he hne => absurd he hne⟩
  | opStart installed =>
    cases hsel : st.selected_package with
    | none => simp only [applyWrite, opStartClick, hsel]; exact ⟨h, fun e he hne => absurd he hne⟩
    | some p =>
      simp only [applyWrite, opStartClick, hsel]
      split
      · exact ⟨fun _ => rfl, fun e he _ => nomatch he⟩
      · exact ⟨h, fun e he hne => absurd he hne⟩
  | opFinished bt res =>
    cases res with
    | ok u => exact ⟨fun hb => (nomatch hb), fun _ _ _ => rfl⟩
    | error e => exact ⟨fun hb => (nomatch hb), fun _ _ _ => rfl⟩
  | clearLogBtn =>
    simp only [applyWrite, clearLogClick]
    split
    · exact ⟨h, fun e he hne => absurd he hne⟩
    · exact ⟨h, fun e he hne => absurd he hne⟩
  | stageFail e => exact ⟨fun hb => (nomatch hb), fun _ _ _ => rfl⟩
  | stageProgress msg => exact ⟨h, fun e he hne => absurd he hne⟩
  | pipelineFinish => exact ⟨fun hb => (nomatch hb), fun _ _ _ => rfl⟩

/-- C7 witness: a pipeline stage failure written onto a busy error-free
state leaves the busy flag cleared in the same write. -/
theorem C7_busy_implies_no_error_w :
    (applyWrite (WriteEvent.stageFail "boom") { initState with is_running := true }).is_running =
      false :=
  (C7_busy_implies_no_error (WriteEvent.stageFail "boom") { initState with is_running := true }
    (by decide)).2 "boom" rfl (by decide)

/-- Helper: every atomic write region other than the caller's explicit
clear-log action only appends to the log. -/
theorem applyWrite_log_extends (ev : WriteEvent) (st : AppState)
    (h : ev.isClearLog = false) : LogExtends st.log (applyWrite ev st).log := by
  cases ev with
  | searchStart =>
    simp only [applyWrite, searchStartClick]
    split
    · exact ⟨[], by simp⟩
    · exact ⟨[], by simp⟩
  | searchFinished res =>
    cases res with
    | ok results => exact ⟨["Search completed."], rfl⟩
    | error e => exact ⟨["Search failed: " ++ e], rfl⟩
  | select installed result =>
    cases installed with
    | false => exact ⟨[], by simp [applyWrite, selectClick, AppState.select_package]⟩
    | true => exact ⟨[], by simp [applyWrite, selectClick, AppState.select_package]⟩
  | opStart installed =>
    cases hsel : st.selected_package with
    | none => exact ⟨[], by simp [applyWrite, opStartClick, hsel]⟩
    | some p =>
      simp only [applyWrite, opStartClick, hsel]
      split
      · exact ⟨[], by simp⟩
      · exact ⟨[], by simp⟩
  | opFinished bt res =>
    cases res with
    | ok u => exact ⟨["Package " ++ bt ++ " process completed."], rfl⟩
    | error e => exact ⟨[bt ++ " failed: " ++ e], rfl⟩
  | clearLogBtn => exact absurd h (by simp [WriteEvent.isClearLog])
  | stageFail e => exact ⟨[], by simp [applyWrite]⟩
  | stageProgress msg => exact ⟨[], by simp [applyWrite]⟩
  | pipelineFinish => exact ⟨["Package installation process completed."], rfl⟩

/-- C8: across any sequence of atomic write regions that does not
contain the caller's explicit clear-log action, the earlier log is a
prefix of the later log — the orchestrator and the pipeline stages
only append, and only the explicit clear-log action empties the
log. -/
theorem C8_log_append_only (evs : List WriteEvent) (st : AppState)
    (h : ∀ ev ∈ evs, ev.isClearLog = false) :
    LogExtends st.log (applyEvents evs st).log := by
  induction evs generalizing st with
  | nil => exact ⟨[], by simp [applyEvents]⟩
  | cons ev rest ih =>
    obtain ⟨t1, ht1⟩ := applyWrite_log_extends ev st (h ev (List.mem_cons_self ev rest))
    obtain ⟨t2, ht2⟩ :=
      ih (applyWrite ev st) (fun e he => h e (List.mem_cons_of_mem ev he))
    exact ⟨t1 ++ t2, by simp [applyEvents] at ht2 ⊢; rw [ht2, ht1, List.append_assoc]⟩

/-- C8 witness: the log-prefix property evaluated across a concrete
start / progress / finish sequence. -/
theorem C8_log_append_only_w :
    LogExtends initState.log
      (applyEvents [WriteEvent.searchStart, WriteEvent.stageProgress "p",
                    WriteEvent.pipelineFinish] initState).log :=
  C8_log_append_only
    [WriteEvent.searchStart, WriteEvent.stageProgress "p", WriteEvent.pipelineFinish]
    initState (by decide)

/-- C9: the artifact scan returns only paths of files in the listing
whose names start with the package identifier and end with the
packaging extension; a directory with no such file yields `none`; and
in that case the pipeline — after a successful build — fails with the
distinct error text `Package file not found` produced at the scan, not
with any build-stage failure (the build stage had already returned
success), and never invokes the install command. -/
theorem C9_artifact_scan :
    (∀ base pkg entries p, find_scan base pkg entries = some p →
      ∃ d, Except.ok d ∈ entries ∧ d.isFile = true ∧
        rStartsWith d.name pkg = true ∧ rEndsWith d.name ".pkg.tar.zst" = true ∧
        p = base ++ "/" ++ pkg ++ "/" ++ d.name) ∧
    (∀ base pkg entries, (∀ d, Except.ok d ∈ entries → matchesArtifact pkg d = false) →
      find_scan base pkg entries = none) ∧
    (∀ w st pkg, w.fetchMeta = Except.ok pkg → w.download = Except.ok () →
      (∃ bo, w.buildSpawn = Except.ok bo) →
      find_package_file w.listing "/tmp/yay" pkg.name = none →
      (run_package_management_logic w st).result = Except.error "Package file not found" ∧
      StageCall.installCmd ∉ (run_package_management_logic w st).calls ∧
      build_package w.buildSpawn = Except.ok ()) := by
  refine ⟨fun base pkg entries => ?_, fun base pkg entries => ?_, ?_⟩
  · induction entries with
    | nil => intro p hp; exact absurd hp (by simp [find_scan])
    | cons head rest ih =>
      intro p hp
      cases head with
      | error e => exact absurd hp (by simp [find_scan])
      | ok d =>
        by_cases hm : matchesArtifact pkg d = true
        · have hmm := hm
          simp only [matchesArtifact, Bool.and_eq_true] at hmm
          have hp' : base ++ "/" ++ pkg ++ "/" ++ d.name = p := by
            simpa [find_scan, hm] using hp
          exact ⟨d, List.mem_cons_self _ _, hmm.1.1, hmm.1.2, hmm.2, hp'.symm⟩
        · have hp' : find_scan base pkg rest = some p := by
            simpa [find_scan, hm] using hp
          obtain ⟨d', hmem, h1, h2, h3, h4⟩ := ih p hp'
          exact ⟨d', List.mem_cons_of_mem _ hmem, h1, h2, h3, h4⟩
  · induction entries with
    | nil => intro _; simp [find_scan]
    | cons head rest ih =>
      intro hno
      cases head with
      | error e => simp [find_scan]
      | ok d =>
        have hd := hno d (List.mem_cons_self _ _)
        simp only [find_scan, hd]
        simp only [Bool.false_eq_true, if_false]
        exact ih (fun d' hd' => hno d' (List.mem_cons_of_mem _ hd'))
  · rintro w st pkg h1 h2 ⟨bo, h3⟩ h4
    refine ⟨?_, ?_, ?_⟩
    · simp [run_package_management_logic, h1, h2, h3, h4, build_package_ok]
    · simp [run_package_management_logic, h1, h2, h3, h4, build_package_ok]
    · rw [h3]; exact build_package_ok bo

/-- C9 witness: the scan soundness property evaluated on a concrete
one-entry listing holding a matching artifact. -/
theorem C9_artifact_scan_w :
    ∃ d, Except.ok d ∈
        ([Except.ok { name := "foo-1.0-x86_64.pkg.tar.zst", isFile := true }] :
          List (Except String DirEntry)) ∧
      d.isFile = true ∧ rStartsWith d.name "foo" = true ∧
      rEndsWith d.name ".pkg.tar.zst" = true ∧
      "/tmp/yay/foo/foo-1.0-x86_64.pkg.tar.zst" = "/tmp/yay" ++ "/" ++ "foo" ++ "/" ++ d.name :=
  C9_artifact_scan.1 "/tmp/yay" "foo"
    [Except.ok { name := "foo-1.0-x86_64.pkg.tar.zst", isFile := true }]
    "/tmp/yay/foo/foo-1.0-x86_64.pkg.tar.zst" rfl

/-- C10: the clear-log action is gated on `is_running` being false —
the button sits in the non-busy branch of the frame — so a clear-log
request arriving while an operation is in flight changes nothing, and
in particular the log is never cleared while busy. -/
theorem C10_clear_log_gated (st : AppState) (h : st.is_running = true) :
    applyWrite WriteEvent.clearLogBtn st = st ∧
    (applyWrite WriteEvent.clearLogBtn st).log = st.log := by
  simp [applyWrite, clearLogClick, h]

/-- C10 witness: the clear-log gate evaluated on a concrete busy
state. -/
theorem C10_clear_log_gated_w :
    applyWrite WriteEvent.clearLogBtn { initState with is_running := true } =
      { initState with is_running := true } :=
  (C10_clear_log_gated { initState with is_running := true } rfl).1
